import Mathlib

/-!
Verification of the `keeper` package: a `PrivateKeyKeeper` abstraction with a
default pass-through implementation (key identifier = raw private key bytes,
delegating to the go-ethereum `crypto` library), and two signer facades
(`secureSigner` built by `NewSecureSigner` / `DefaultSecureSigner`, and
`SecureSign` with a setter and a lazy default-keeper fallback).

Go byte slices are embedded as `List Nat` (each entry a byte value), the Go
`(value, error)` return pattern as `Except GoError value`, and a possibly
panicking call (method dispatch on a nil interface) as `GoResult`.  The
external go-ethereum crypto primitives and the transaction/signer abstraction
are not part of the two source files; they are modelled from the spec, with
doc comments saying so.
-/

namespace GoKeeper

/-- A Go byte slice: a list of byte values. -/
abbrev Bytes := List Nat

/-- Big-endian byte encoding of a natural number into a fixed width, as
`math.PaddedBigBytes(d, w)` produces for a non-negative big integer. -/
def bytesBE : Nat → Nat → Bytes
  | 0, _ => []
  | w + 1, v => bytesBE w (v / 256) ++ [v % 256]

/-- Big-endian byte decoding, as `new(big.Int).SetBytes(b)`. -/
def decodeBE (b : Bytes) : Nat :=
  b.foldl (fun acc x => acc * 256 + x) 0

/-- The error values that can flow through the component.  The first three are
the parse failures of `crypto.ToECDSA`; `keyGeneration` models a randomness or
curve-parameter failure in `crypto.GenerateKey`; `hashLength` is the
`crypto.Sign` digest-length failure; `castFailed` is the
"cannot cast public key to ecsda public key" error of `GetPublicKey`;
`external` covers any other error value produced by an alternative
`PrivateKeyKeeper` implementation or by the transaction library. -/
inductive GoError where
  | invalidLength
  | invalidKeyTooBig
  | invalidKeyZero
  | keyGeneration
  | hashLength
  | castFailed
  | external (msg : String)
deriving DecidableEq, Repr

/-- The spec's `InvalidKeyIdentifier` error class: the failures of parsing a
key identifier into a valid private key. -/
def GoError.isInvalidKeyIdentifier : GoError → Bool
  | .invalidLength => true
  | .invalidKeyTooBig => true
  | .invalidKeyZero => true
  | _ => false

/-- Result of a Go call that may return a value, return an error, or panic
(dispatching a method on a nil interface value panics at runtime). -/
inductive GoResult (α : Type) where
  | ok (a : α)
  | err (e : GoError)
  | panic (msg : String)
deriving DecidableEq, Repr

/-- Lift a non-panicking Go `(value, error)` result into `GoResult`. -/
def GoResult.ofExcept : Except GoError α → GoResult α
  | .ok a => .ok a
  | .error e => .err e

/-- The runtime message of a nil-pointer / nil-interface dereference. -/
def nilDerefMsg : String :=
  "runtime error: invalid memory address or nil pointer dereference"

namespace crypto

/-- Modelled from the spec: the order of the curve used by the external
cryptographic primitive provider (secp256k1's group order `N`, the bound the
private-key parser checks scalars against). -/
def secp256k1N : Nat :=
  115792089237316195423570985008687907852837564279074904382605163141518161494337

/-- Modelled from the spec: a parsed private key object of the external
crypto library (`*ecdsa.PrivateKey`), reduced to its scalar `d`. -/
structure PrivateKey where
  d : Nat
deriving DecidableEq, Repr

/-- Modelled from the spec: a public key object of the external crypto
library (`*ecdsa.PublicKey`), reduced to an abstract point.  Public-key
derivation (scalar base multiplication) is deterministic and injective on
valid scalars, so the point is modelled by the scalar itself. -/
structure PublicKey where
  point : Nat
deriving DecidableEq, Repr

/-- Modelled from the spec: deterministic public-key derivation from a
private key (`priv.PublicKey`, i.e. `d * G`). -/
def pubOf (prv : PrivateKey) : PublicKey :=
  ⟨prv.d⟩

/-- Modelled from the spec: `privateKey.Public()` followed by the
`.(*ecdsa.PublicKey)` type assertion of the source; the assertion always
succeeds, which the model records by always returning `some`. -/
def PrivateKey.Public (prv : PrivateKey) : Option PublicKey :=
  some (pubOf prv)

/-- Modelled from the spec: `crypto.GenerateKey`, secure key-pair generation.
The ambient entropy stream is an explicit argument: `none` models a
randomness failure (`KeyGenerationError`), `some r` yields a fresh valid
scalar in `[1, N)`. -/
def GenerateKey : Option Nat → Except GoError PrivateKey
  | none => .error .keyGeneration
  | some r => .ok ⟨r % (secp256k1N - 1) + 1⟩

/-- Modelled from the spec: `crypto.FromECDSA`, the deterministic raw-byte
serialization of a private key: its scalar as 32 big-endian bytes. -/
def FromECDSA (prv : PrivateKey) : Bytes :=
  bytesBE 32 prv.d

/-- Modelled from the spec: `crypto.ToECDSA`, parsing raw private-key bytes
into a usable key object.  Strict parsing requires exactly 256 bits, and the
scalar must be nonzero and below the curve order `N`. -/
def ToECDSA (b : Bytes) : Except GoError PrivateKey :=
  if 8 * b.length ≠ 256 then
    .error .invalidLength
  else
    let d := decodeBE b
    if secp256k1N ≤ d then
      .error .invalidKeyTooBig
    else if d = 0 then
      .error .invalidKeyZero
    else
      .ok ⟨d⟩

/-- Modelled from the spec: `crypto.FromECDSAPub`, deterministic
byte-serialization of a public key: the uncompressed 65-byte form, a `0x04`
tag followed by the point encoded in 64 big-endian bytes. -/
def FromECDSAPub (pub : PublicKey) : Bytes :=
  4 :: bytesBE 64 pub.point

/-- Modelled from the spec: `crypto.Sign`, signing a fixed-length digest.
The digest must be exactly 32 bytes; the signature is a deterministic byte
string from which the signer's public key and the digest are recoverable
(the chain's signature format carries a recovery id), modelled as the
serialized public key followed by the digest. -/
def Sign (digestHash : Bytes) (prv : PrivateKey) : Except GoError Bytes :=
  if digestHash.length ≠ 32 then
    .error .hashLength
  else
    .ok (FromECDSAPub (pubOf prv) ++ digestHash)

/-- Modelled from the spec: the chain's signature-verification rule — a
signature verifies against a serialized public key and a digest exactly when
it was produced by the matching private key on that digest. -/
def VerifySignature (pubkey digestHash signature : Bytes) : Bool :=
  decide (signature = pubkey ++ digestHash)

end crypto

/-- The `PrivateKeyKeeper` interface: generate / derive-public / sign, keyed
by an opaque identifier.  `GeneratePrivateKey` additionally receives the
ambient entropy stream, which the Go runtime supplies implicitly. -/
structure PrivateKeyKeeper where
  GeneratePrivateKey : Option Nat → Except GoError Bytes
  GetPublicKey : Bytes → Except GoError Bytes
  Sign : Bytes → Bytes → Except GoError Bytes

/-- `defaultPrivateKeyKeeper.GeneratePrivateKey`: generate a fresh key pair
and return its raw private bytes as the identifier. -/
def defaultPrivateKeyKeeper.GeneratePrivateKey (entropy : Option Nat) :
    Except GoError Bytes :=
  match crypto.GenerateKey entropy with
  | .error e => .error e
  | .ok privateKey => .ok (crypto.FromECDSA privateKey)

/-- `defaultPrivateKeyKeeper.GetPublicKey`: re-parse the identifier as a
private key, derive the public key, cast it, and serialize it. -/
def defaultPrivateKeyKeeper.GetPublicKey (prvID : Bytes) :
    Except GoError Bytes :=
  match crypto.ToECDSA prvID with
  | .error e => .error e
  | .ok privateKey =>
    match privateKey.Public with
    | none => .error .castFailed
    | some publicKeyECDSA => .ok (crypto.FromECDSAPub publicKeyECDSA)

/-- `defaultPrivateKeyKeeper.Sign`: re-parse the identifier as a private key
and sign the data with it. -/
def defaultPrivateKeyKeeper.Sign (data prvID : Bytes) :
    Except GoError Bytes :=
  match crypto.ToECDSA prvID with
  | .error e => .error e
  | .ok prv =>
    match crypto.Sign data prv with
    | .error e => .error e
    | .ok sig => .ok sig

/-- The package-level `defaultKeeper` variable: a `defaultPrivateKeyKeeper`
viewed through the `PrivateKeyKeeper` interface. -/
def defaultKeeper : PrivateKeyKeeper :=
  { GeneratePrivateKey := defaultPrivateKeyKeeper.GeneratePrivateKey
    GetPublicKey := defaultPrivateKeyKeeper.GetPublicKey
    Sign := defaultPrivateKeyKeeper.Sign }

/-- Modelled from the spec: the external transaction/signer abstraction
(`types.Signer` of the transaction library) over an opaque transaction type
`Tx`.  `Hash` computes the canonical 32-byte signing hash (`common.Hash` is a
32-byte array, so the length is structural); `WithSignature` models
`tx.WithSignature(s, sig)`, reconstructing a transaction with the signature
attached, and may fail. -/
structure Signer (Tx : Type) where
  Hash : Tx → Bytes
  hash_len : ∀ tx, (Hash tx).length = 32
  WithSignature : Tx → Bytes → Except GoError Tx

/-- The `secureSigner` struct.  Its keeper field holds a `PrivateKeyKeeper`
interface value, which in Go may be nil (`none`). -/
structure secureSigner where
  keeper : Option PrivateKeyKeeper

/-- `NewSecureSigner`: wrap the supplied keeper (possibly nil). -/
def NewSecureSigner (keeper : Option PrivateKeyKeeper) : secureSigner :=
  { keeper := keeper }

/-- `DefaultSecureSigner`: wrap the package-level default keeper. -/
def DefaultSecureSigner : secureSigner :=
  { keeper := some defaultKeeper }

/-- `secureSigner.GenerateKey`: forward to the held keeper; dispatch on a nil
keeper panics. -/
def secureSigner.GenerateKey (sec : secureSigner) (entropy : Option Nat) :
    GoResult Bytes :=
  match sec.keeper with
  | none => .panic nilDerefMsg
  | some keeper =>
    match keeper.GeneratePrivateKey entropy with
    | .error e => .err e
    | .ok prvID => .ok prvID

/-- `secureSigner.GetPublicKey`: forward to the held keeper; dispatch on a
nil keeper panics. -/
def secureSigner.GetPublicKey (sec : secureSigner) (prvID : Bytes) :
    GoResult Bytes :=
  match sec.keeper with
  | none => .panic nilDerefMsg
  | some keeper =>
    match keeper.GetPublicKey prvID with
    | .error e => .err e
    | .ok pbl => .ok pbl

/-- `secureSigner.Sign`: hash the transaction, sign the hash bytes with the
held keeper, and reattach the signature; dispatch on a nil keeper panics. -/
def secureSigner.Sign {Tx : Type} (sec : secureSigner) (tx : Tx)
    (s : Signer Tx) (prvID : Bytes) : GoResult Tx :=
  let h := s.Hash tx
  match sec.keeper with
  | none => .panic nilDerefMsg
  | some keeper =>
    match keeper.Sign h prvID with
    | .error e => .err e
    | .ok sig => GoResult.ofExcept (s.WithSignature tx sig)

/-- The `SecureSign` struct of the second design: a keeper field (nil when
zero-valued) set either by `SetKeeper` or lazily inside `Sign`. -/
structure SecureSign where
  keeper : Option PrivateKeyKeeper

/-- `SecureSign.SetKeeper`: receiver mutation, modelled by returning the
updated struct. -/
def SecureSign.SetKeeper (_a : SecureSign) (keeper : PrivateKeyKeeper) :
    SecureSign :=
  { keeper := some keeper }

/-- `SecureSign.Sign`: if the keeper is nil, assign the package-level default
keeper to the receiver first; then hash, sign and reattach exactly as the
other design.  The mutated receiver is returned alongside the result. -/
def SecureSign.Sign {Tx : Type} (a : SecureSign) (tx : Tx) (s : Signer Tx)
    (prvID : Bytes) : SecureSign × GoResult Tx :=
  let keeper :=
    match a.keeper with
    | none => defaultKeeper
    | some k => k
  let a' : SecureSign := { keeper := some keeper }
  let h := s.Hash tx
  match keeper.Sign h prvID with
  | .error e => (a', .err e)
  | .ok sig => (a', GoResult.ofExcept (s.WithSignature tx sig))

/-! ### Concrete test fixtures

Small concrete keepers and hashers used to instantiate the universally
quantified theorems below on explicit inputs. -/

/-- A hasher over `Nat` transactions: constant zero hash, reattachment by
combining the payload with the signature length. -/
def testSigner : Signer Nat :=
  { Hash := fun _ => List.replicate 32 0
    hash_len := fun _ => rfl
    WithSignature := fun tx sig => .ok (tx + sig.length) }

/-- A hasher over `Nat` transactions whose reattachment step always fails. -/
def testSignerFail : Signer Nat :=
  { Hash := fun _ => List.replicate 32 0
    hash_len := fun _ => rfl
    WithSignature := fun _ _ => .error (.external "bad signature") }

/-- A keeper whose operations always succeed with recognizable bytes. -/
def testKeeper : PrivateKeyKeeper :=
  { GeneratePrivateKey := fun _ => .ok [1, 2, 3]
    GetPublicKey := fun prvID => .ok (0 :: prvID)
    Sign := fun data prvID => .ok (data ++ prvID) }

/-- A keeper whose operations always fail with external errors. -/
def testKeeperErr : PrivateKeyKeeper :=
  { GeneratePrivateKey := fun _ => .error (.external "gen failed")
    GetPublicKey := fun _ => .error (.external "pub failed")
    Sign := fun _ _ => .error (.external "sign failed") }

/-! ### Properties of the byte encoding -/

/-- `bytesBE w v` always has exactly `w` bytes. -/
theorem bytesBE_length (w v : Nat) : (bytesBE w v).length = w := by
  induction w generalizing v with
  | zero => rfl
  | succ w ih => simp [bytesBE, ih]

/-- Decoding appends the last byte as the least significant digit. -/
theorem decodeBE_append_byte (l : Bytes) (x : Nat) :
    decodeBE (l ++ [x]) = decodeBE l * 256 + x := by
  simp [decodeBE, List.foldl_append]

/-- Big-endian encode/decode round trip for values within the width. -/
theorem decodeBE_bytesBE (w v : Nat) (h : v < 256 ^ w) :
    decodeBE (bytesBE w v) = v := by
  induction w generalizing v with
  | zero =>
    interval_cases v
    rfl
  | succ w ih =>
    rw [bytesBE, decodeBE_append_byte, ih (v / 256) ?_]
    · exact Nat.div_add_mod' v 256
    · have h2 : v < 256 * 256 ^ w := by
        rw [Nat.pow_succ] at h
        omega
      exact Nat.div_lt_of_lt_mul h2

/-- The curve order is below `256 ^ 32`, so 32 big-endian bytes suffice for
any valid scalar. -/
theorem secp256k1N_lt : crypto.secp256k1N < 256 ^ 32 := by decide

/-- Parsing the serialized form of a valid private key recovers it. -/
theorem toECDSA_fromECDSA (prv : crypto.PrivateKey) (h0 : prv.d ≠ 0)
    (hN : prv.d < crypto.secp256k1N) :
    crypto.ToECDSA (crypto.FromECDSA prv) = .ok prv := by
  have hlen : (crypto.FromECDSA prv).length = 32 := bytesBE_length 32 prv.d
  have hdec : decodeBE (crypto.FromECDSA prv) = prv.d :=
    decodeBE_bytesBE 32 prv.d (lt_trans hN secp256k1N_lt)
  unfold crypto.ToECDSA
  rw [hlen]
  simp only [hdec]
  rw [if_neg (by omega), if_neg (by omega), if_neg h0]

/-- Every key `crypto.GenerateKey` produces has a nonzero scalar below the
curve order. -/
theorem generateKey_valid (r : Nat) (prv : crypto.PrivateKey)
    (h : crypto.GenerateKey (some r) = .ok prv) :
    prv.d ≠ 0 ∧ prv.d < crypto.secp256k1N := by
  obtain ⟨d⟩ := prv
  show d ≠ 0 ∧ d < crypto.secp256k1N
  have hd : r % (crypto.secp256k1N - 1) + 1 = d := by
    simpa [crypto.GenerateKey, crypto.PrivateKey.mk.injEq] using h
  have hm : r % (crypto.secp256k1N - 1) < crypto.secp256k1N - 1 :=
    Nat.mod_lt r (by decide)
  have hs : 1 ≤ crypto.secp256k1N := by decide
  exact ⟨by omega, by omega⟩

/-- Every identifier `defaultPrivateKeyKeeper.GeneratePrivateKey` returns is
the serialization of a valid private key that `crypto.ToECDSA` re-parses. -/
theorem generatePrivateKey_parses (e : Option Nat) (k : Bytes)
    (h : defaultPrivateKeyKeeper.GeneratePrivateKey e = .ok k) :
    ∃ prv : crypto.PrivateKey, crypto.ToECDSA k = .ok prv := by
  match e with
  | none => simp [defaultPrivateKeyKeeper.GeneratePrivateKey,
      crypto.GenerateKey] at h
  | some r =>
    have hk : k = crypto.FromECDSA ⟨r % (crypto.secp256k1N - 1) + 1⟩ := by
      simpa [defaultPrivateKeyKeeper.GeneratePrivateKey,
        crypto.GenerateKey] using h.symm
    have hv := generateKey_valid r ⟨r % (crypto.secp256k1N - 1) + 1⟩ (by
      simp [crypto.GenerateKey])
    exact ⟨_, hk ▸ toECDSA_fromECDSA _ hv.1 hv.2⟩

/-! ### The claims about the default keeper -/

/-- C1: for every key identifier produced by a successful
`defaultPrivateKeyKeeper.GeneratePrivateKey` and every 32-byte data string, a
successful `Sign` yields a signature that verifies against the public key
returned by `GetPublicKey` and the data. -/
theorem C1_sign_verify_roundtrip (e : Option Nat) (k d : Bytes)
    (hk : defaultPrivateKeyKeeper.GeneratePrivateKey e = .ok k)
    (hd : d.length = 32) :
    ∃ sig pub,
      defaultPrivateKeyKeeper.Sign d k = .ok sig ∧
      defaultPrivateKeyKeeper.GetPublicKey k = .ok pub ∧
      crypto.VerifySignature pub d sig = true := by
  obtain ⟨prv, hprv⟩ := generatePrivateKey_parses e k hk
  refine ⟨crypto.FromECDSAPub (crypto.pubOf prv) ++ d,
    crypto.FromECDSAPub (crypto.pubOf prv), ?_, ?_, ?_⟩
  · simp [defaultPrivateKeyKeeper.Sign, hprv, crypto.Sign, hd]
  · simp [defaultPrivateKeyKeeper.GetPublicKey, hprv, crypto.PrivateKey.Public]
  · simp [crypto.VerifySignature]

/-- Witness for C1 at the concrete entropy `some 0` (scalar 1) and the
all-zero 32-byte digest. -/
theorem C1_sign_verify_roundtrip_witness :
    defaultPrivateKeyKeeper.GeneratePrivateKey (some 0) = .ok (bytesBE 32 1) ∧
    (List.replicate 32 0).length = 32 ∧
    ∃ sig pub,
      defaultPrivateKeyKeeper.Sign (List.replicate 32 0) (bytesBE 32 1) =
        .ok sig ∧
      defaultPrivateKeyKeeper.GetPublicKey (bytesBE 32 1) = .ok pub ∧
      crypto.VerifySignature pub (List.replicate 32 0) sig = true :=
  ⟨rfl, rfl,
    C1_sign_verify_roundtrip (some 0) (bytesBE 32 1) (List.replicate 32 0)
      rfl rfl⟩

/-- C3: an identifier that does not parse as a valid private key makes both
`GetPublicKey` and `Sign` return that parse error unchanged, an error of the
spec's `InvalidKeyIdentifier` class; neither returns a success, and both are
total functions of their input (no panic). -/
theorem C3_malformed_identifier (prvID d : Bytes) (e : GoError)
    (h : crypto.ToECDSA prvID = .error e) :
    defaultPrivateKeyKeeper.GetPublicKey prvID = .error e ∧
    defaultPrivateKeyKeeper.Sign d prvID = .error e ∧
    e.isInvalidKeyIdentifier = true := by
  refine ⟨?_, ?_, ?_⟩
  · simp [defaultPrivateKeyKeeper.GetPublicKey, h]
  · simp [defaultPrivateKeyKeeper.Sign, h]
  · unfold crypto.ToECDSA at h
    split at h
    · injection h with h2
      subst h2
      rfl
    · dsimp only at h
      split at h
      · injection h with h2
        subst h2
        rfl
      · split at h
        · injection h with h2
          subst h2
          rfl
        · exact Except.noConfusion h

/-- Witness for C3 at the spec's example of a malformed identifier: 10 bytes
instead of a valid private-key-length value. -/
theorem C3_malformed_identifier_witness :
    crypto.ToECDSA (List.replicate 10 0) = .error .invalidLength ∧
    defaultPrivateKeyKeeper.GetPublicKey (List.replicate 10 0) =
      .error .invalidLength ∧
    defaultPrivateKeyKeeper.Sign [1] (List.replicate 10 0) =
      .error .invalidLength ∧
    GoError.invalidLength.isInvalidKeyIdentifier = true :=
  ⟨rfl,
    (C3_malformed_identifier (List.replicate 10 0) [1] .invalidLength rfl).1,
    (C3_malformed_identifier (List.replicate 10 0) [1] .invalidLength rfl).2.1,
    rfl⟩

/-- C4: every identifier a successful `GeneratePrivateKey` returns is
accepted by `GetPublicKey` and `Sign`: re-parsing it with `crypto.ToECDSA`
succeeds, so `GetPublicKey` succeeds and `Sign` reduces to the underlying
`crypto.Sign` of the re-parsed key — the three operations agree on the
identifier format. -/
theorem C4_generate_accepted (e : Option Nat) (k : Bytes)
    (hk : defaultPrivateKeyKeeper.GeneratePrivateKey e = .ok k) :
    ∃ prv : crypto.PrivateKey,
      crypto.ToECDSA k = .ok prv ∧
      defaultPrivateKeyKeeper.GetPublicKey k =
        .ok (crypto.FromECDSAPub (crypto.pubOf prv)) ∧
      ∀ d, defaultPrivateKeyKeeper.Sign d k = crypto.Sign d prv := by
  obtain ⟨prv, hprv⟩ := generatePrivateKey_parses e k hk
  refine ⟨prv, hprv, ?_, ?_⟩
  · simp [defaultPrivateKeyKeeper.GetPublicKey, hprv, crypto.PrivateKey.Public]
  · intro d
    cases hq : crypto.Sign d prv <;>
      simp [defaultPrivateKeyKeeper.Sign, hprv, hq]

/-- Witness for C4 at the concrete entropy `some 0`. -/
theorem C4_generate_accepted_witness :
    defaultPrivateKeyKeeper.GeneratePrivateKey (some 0) = .ok (bytesBE 32 1) ∧
    ∃ prv : crypto.PrivateKey,
      crypto.ToECDSA (bytesBE 32 1) = .ok prv ∧
      defaultPrivateKeyKeeper.GetPublicKey (bytesBE 32 1) =
        .ok (crypto.FromECDSAPub (crypto.pubOf prv)) ∧
      ∀ d, defaultPrivateKeyKeeper.Sign d (bytesBE 32 1) = crypto.Sign d prv :=
  ⟨rfl, C4_generate_accepted (some 0) (bytesBE 32 1) rfl⟩

/-- C8: `GetPublicKey` is a pure, deterministic function of the identifier —
embedded as a Lean function of exactly the identifier argument (the code
reads no other state) — and on every valid generated identifier it succeeds
with a uniquely determined byte string. -/
theorem C8_getPublicKey_deterministic (e : Option Nat) (k : Bytes)
    (hk : defaultPrivateKeyKeeper.GeneratePrivateKey e = .ok k) :
    ∃ pub, defaultPrivateKeyKeeper.GetPublicKey k = .ok pub ∧
      ∀ b1 b2, defaultPrivateKeyKeeper.GetPublicKey k = .ok b1 →
        defaultPrivateKeyKeeper.GetPublicKey k = .ok b2 → b1 = b2 := by
  obtain ⟨prv, hprv⟩ := generatePrivateKey_parses e k hk
  refine ⟨crypto.FromECDSAPub (crypto.pubOf prv), ?_, ?_⟩
  · simp [defaultPrivateKeyKeeper.GetPublicKey, hprv, crypto.PrivateKey.Public]
  · intro b1 b2 h1 h2
    rw [h1] at h2
    injection h2

/-- Witness for C8 at the concrete entropy `some 0`. -/
theorem C8_getPublicKey_deterministic_witness :
    defaultPrivateKeyKeeper.GeneratePrivateKey (some 0) = .ok (bytesBE 32 1) ∧
    ∃ pub, defaultPrivateKeyKeeper.GetPublicKey (bytesBE 32 1) = .ok pub ∧
      ∀ b1 b2,
        defaultPrivateKeyKeeper.GetPublicKey (bytesBE 32 1) = .ok b1 →
        defaultPrivateKeyKeeper.GetPublicKey (bytesBE 32 1) = .ok b2 →
        b1 = b2 :=
  ⟨rfl, C8_getPublicKey_deterministic (some 0) (bytesBE 32 1) rfl⟩

/-! ### The claims about the signer facades -/

/-- C2: `secureSigner.Sign` computes the hash of the transaction, hands
exactly those hash bytes to the keeper's `Sign`, and on success returns the
transaction reassembled with the resulting signature via the hasher's
`WithSignature`; a keeper failure is returned as that error. -/
theorem C2_secureSigner_sign_pipeline {Tx : Type} (k : PrivateKeyKeeper)
    (tx : Tx) (s : Signer Tx) (prvID : Bytes) :
    (∀ e, k.Sign (s.Hash tx) prvID = .error e →
      secureSigner.Sign ⟨some k⟩ tx s prvID = .err e) ∧
    (∀ sig, k.Sign (s.Hash tx) prvID = .ok sig →
      secureSigner.Sign ⟨some k⟩ tx s prvID =
        GoResult.ofExcept (s.WithSignature tx sig)) := by
  constructor
  · intro e he
    simp [secureSigner.Sign, he]
  · intro sig hsig
    simp [secureSigner.Sign, hsig]

/-- Witness for C2 with a concrete keeper, hasher and transaction. -/
theorem C2_secureSigner_sign_pipeline_witness :
    testKeeper.Sign (testSigner.Hash 7) [9] =
      .ok (List.replicate 32 0 ++ [9]) ∧
    secureSigner.Sign ⟨some testKeeper⟩ 7 testSigner [9] =
      GoResult.ofExcept (testSigner.WithSignature 7
        (List.replicate 32 0 ++ [9])) :=
  ⟨rfl, (C2_secureSigner_sign_pipeline testKeeper 7 testSigner [9]).2 _ rfl⟩

/-- C5: construction contract of the signer facades.  `NewSecureSigner`
stores the explicitly supplied keeper and `DefaultSecureSigner` stores the
process-wide default keeper; the `SecureSign` design starts with no keeper
and its first `Sign` call assigns the global `defaultKeeper` and uses it,
while an explicitly set keeper is kept and used unchanged. -/
theorem C5_construction_contract {Tx : Type} (k kk : PrivateKeyKeeper)
    (a : SecureSign) (tx : Tx) (s : Signer Tx) (prvID : Bytes) :
    (NewSecureSigner (some k)).keeper = some k ∧
    DefaultSecureSigner.keeper = some defaultKeeper ∧
    (a.keeper = none →
      (a.Sign tx s prvID).1.keeper = some defaultKeeper ∧
      (a.Sign tx s prvID).2 =
        (SecureSign.Sign ⟨some defaultKeeper⟩ tx s prvID).2) ∧
    (a.keeper = some kk →
      (a.Sign tx s prvID).1 = a ∧
      (a.Sign tx s prvID).2 =
        (SecureSign.Sign ⟨some kk⟩ tx s prvID).2) := by
  obtain ⟨ak⟩ := a
  refine ⟨rfl, rfl, ?_, ?_⟩
  · intro h
    subst h
    cases hq : defaultKeeper.Sign (s.Hash tx) prvID <;>
      simp [SecureSign.Sign, hq]
  · intro h
    subst h
    cases hq : kk.Sign (s.Hash tx) prvID <;>
      simp [SecureSign.Sign, hq]

/-- Witness for C5: the lazy fallback on a keeperless `SecureSign` and the
stability of an explicitly held keeper, at concrete inputs. -/
theorem C5_construction_contract_witness :
    (SecureSign.Sign ⟨none⟩ 7 testSigner [9]).1.keeper =
      some defaultKeeper ∧
    (SecureSign.Sign ⟨some testKeeper⟩ 7 testSigner [9]).1 =
      ⟨some testKeeper⟩ :=
  ⟨((C5_construction_contract testKeeper testKeeper ⟨none⟩ 7 testSigner
      [9]).2.2.1 rfl).1,
   ((C5_construction_contract testKeeper testKeeper ⟨some testKeeper⟩ 7
      testSigner [9]).2.2.2 rfl).1⟩

/-- C6: the two signer designs are behaviorally equivalent — for any held
keeper, transaction, hasher and identifier, `secureSigner.Sign` and
`SecureSign.Sign` return the same signed transaction or the same error. -/
theorem C6_designs_equivalent {Tx : Type} (k : PrivateKeyKeeper) (tx : Tx)
    (s : Signer Tx) (prvID : Bytes) :
    secureSigner.Sign ⟨some k⟩ tx s prvID =
      (SecureSign.Sign ⟨some k⟩ tx s prvID).2 := by
  cases hq : k.Sign (s.Hash tx) prvID <;>
    simp [secureSigner.Sign, SecureSign.Sign, hq]

/-- C7: every error of the keeper (and of the hasher's reassembly step,
where it can fail) is surfaced by the facade unchanged — the same error
value, with no other result. -/
theorem C7_error_propagation {Tx : Type} (k : PrivateKeyKeeper)
    (entropy : Option Nat) (p : Bytes) (tx : Tx) (s : Signer Tx)
    (er : GoError) :
    (k.GeneratePrivateKey entropy = .error er →
      secureSigner.GenerateKey ⟨some k⟩ entropy = .err er) ∧
    (k.GetPublicKey p = .error er →
      secureSigner.GetPublicKey ⟨some k⟩ p = .err er) ∧
    (k.Sign (s.Hash tx) p = .error er →
      secureSigner.Sign ⟨some k⟩ tx s p = .err er) ∧
    (∀ sig, k.Sign (s.Hash tx) p = .ok sig →
      s.WithSignature tx sig = .error er →
      secureSigner.Sign ⟨some k⟩ tx s p = .err er) := by
  refine ⟨?_, ?_, ?_, ?_⟩
  · intro h
    simp [secureSigner.GenerateKey, h]
  · intro h
    simp [secureSigner.GetPublicKey, h]
  · intro h
    simp [secureSigner.Sign, h]
  · intro sig h1 h2
    simp [secureSigner.Sign, h1, h2, GoResult.ofExcept]

/-- Witness for C7: a keeper failure and a reassembly failure, each surfaced
unchanged at concrete inputs. -/
theorem C7_error_propagation_witness :
    secureSigner.GenerateKey ⟨some testKeeperErr⟩ none =
      .err (.external "gen failed") ∧
    secureSigner.Sign ⟨some testKeeperErr⟩ 7 testSigner [9] =
      .err (.external "sign failed") ∧
    secureSigner.Sign ⟨some testKeeper⟩ 7 testSignerFail [9] =
      .err (.external "bad signature") :=
  ⟨(C7_error_propagation testKeeperErr none [9] 7 testSigner
      (.external "gen failed")).1 rfl,
   (C7_error_propagation testKeeperErr none [9] 7 testSigner
      (.external "sign failed")).2.2.1 rfl,
   (C7_error_propagation testKeeper none [9] 7 testSignerFail
      (.external "bad signature")).2.2.2 _ rfl rfl⟩

/-- C9: `SecureSign.Sign` mutates its receiver on the fallback path — after
any call the keeper field is non-nil; a nil keeper is replaced by the global
`defaultKeeper`, an existing keeper is kept, a further call leaves the state
unchanged, and `SetKeeper` replaces it. -/
theorem C9_secureSign_receiver_mutation {Tx : Type} (a : SecureSign)
    (kk k2 : PrivateKeyKeeper) (tx tx2 : Tx) (s : Signer Tx) (p p2 : Bytes) :
    (a.Sign tx s p).1.keeper ≠ none ∧
    (a.keeper = none → (a.Sign tx s p).1 = ⟨some defaultKeeper⟩) ∧
    (a.keeper = some kk → (a.Sign tx s p).1 = a) ∧
    ((a.Sign tx s p).1.Sign tx2 s p2).1 = (a.Sign tx s p).1 ∧
    ((a.Sign tx s p).1.SetKeeper k2).keeper = some k2 := by
  obtain ⟨ak⟩ := a
  cases ak with
  | none =>
    cases hq : defaultKeeper.Sign (s.Hash tx) p <;>
      cases hq2 : defaultKeeper.Sign (s.Hash tx2) p2 <;>
      simp [SecureSign.Sign, SecureSign.SetKeeper, hq, hq2]
  | some k =>
    cases hq : k.Sign (s.Hash tx) p <;>
      cases hq2 : k.Sign (s.Hash tx2) p2 <;>
      simp [SecureSign.Sign, SecureSign.SetKeeper, hq, hq2]

/-- Witness for C9: the fallback assignment and the keeper-preserving case
at concrete inputs. -/
theorem C9_secureSign_receiver_mutation_witness :
    (SecureSign.Sign ⟨none⟩ 7 testSigner [9]).1 = ⟨some defaultKeeper⟩ ∧
    (SecureSign.Sign ⟨some testKeeper⟩ 7 testSigner [9]).1 =
      ⟨some testKeeper⟩ :=
  ⟨(C9_secureSign_receiver_mutation ⟨none⟩ testKeeper testKeeper 7 7
      testSigner [9] [9]).2.1 rfl,
   (C9_secureSign_receiver_mutation ⟨some testKeeper⟩ testKeeper testKeeper
      7 7 testSigner [9] [9]).2.2.1 rfl⟩

/-- C10: a signer built via `NewSecureSigner` over a nil keeper has no
default-keeper fallback — each of its three operations panics with a nil
dereference — whereas `DefaultSecureSigner` supplies the default keeper
eagerly and `SecureSign.Sign` supplies it lazily. -/
theorem C10_nil_keeper_no_fallback {Tx : Type} (entropy : Option Nat)
    (p : Bytes) (tx : Tx) (s : Signer Tx) :
    (NewSecureSigner none).GenerateKey entropy = .panic nilDerefMsg ∧
    (NewSecureSigner none).GetPublicKey p = .panic nilDerefMsg ∧
    secureSigner.Sign (NewSecureSigner none) tx s p = .panic nilDerefMsg ∧
    DefaultSecureSigner.keeper = some defaultKeeper ∧
    (SecureSign.Sign (SecureSign.mk none) tx s p).1.keeper =
      some defaultKeeper := by
  refine ⟨rfl, rfl, rfl, rfl, ?_⟩
  cases hq : defaultKeeper.Sign (s.Hash tx) p <;>
    simp [SecureSign.Sign, hq]

end GoKeeper
